import Mathlib

/-!
Verification development for `punch` (oxyutils): a CLI tool that creates a
file of a requested size, either through platform preallocation syscalls or
through a manual zero-fill write loop.

The embedding below mirrors `src/punch.rs` on a Linux build (the only Unix
family whose `cfg` block is relevant to the claims).  External effects are
parameters: the `fallocate` return value and the behaviour of each
`BufWriter::write` call are oracles supplied to the model.  Machine integers
are modelled as `Nat`/`Int` with explicit wrap-around where the source casts
(`size as i64` on a `u64` value); `usize` is 64-bit, so `size as usize` is
the identity on the values involved.
-/

set_option autoImplicit false

/-- The zero-fill buffer size from the source: `vec![0; 1024 * 1024]`. -/
def chunkSize : Nat := 1024 * 1024

/-- Rust `as`-cast from `u64` to `i64`: two's-complement reinterpretation.
The source performs `size as i64` when invoking `libc::fallocate`. -/
def toI64 (n : Nat) : Int :=
  if n < 2 ^ 63 then (n : Int) else (n : Int) - 2 ^ 64

/-- The manual zero-fill loop of `punch.rs`:

```rust
let mut written = 0_usize;
while let Ok(n) = buf_writer.write(&buf) {
    written += n;
    if written >= size as usize {
        break;
    }
}
```

`write i` is the oracle for the `i`-th `write` call: `some n` models
`Ok(n)` (the call reported `n` bytes written), `none` models `Err(_)`
(on which the `while let` exits the loop).  The result is the cumulative
`written` when the loop exits, or `none` when the loop has not exited
within `fuel` iterations.  Note the source checks `written >= size` only
AFTER adding the bytes of a successful write, so at least one write is
attempted before any size check. -/
def zeroFillRun (write : Nat → Option Nat) (size : Nat) :
    Nat → Nat → Nat → Option Nat
  | 0, _, _ => none
  | fuel + 1, i, written =>
    match write i with
    | none => some written
    | some n =>
      if written + n ≥ size then some (written + n)
      else zeroFillRun write size fuel (i + 1) (written + n)

/-- Observable outcome of one run of the allocation part of `main` (after
the file has been created empty): the list of `fallocate` invocations as
(offset, length) pairs (the mode argument is the constant `0` in the
source), the bytes written by the zero-fill loop, the file's final length,
whether `main` returned `Ok(())` (process exit status 0), and the
diagnostics printed. -/
structure RunOutcome where
  fallocCalls : List (Int × Int)
  written : Nat
  finalLen : Nat
  exitOk : Bool
  diagnostics : List String
deriving DecidableEq, Repr

/-- The allocation logic of `main` in `punch.rs`, specialised to a Linux
build (only the `target_os = "linux"` cfg block is compiled in):

```rust
if !args.no_syscall {
    let ret = unsafe { libc::fallocate(fd, 0, 0, size as i64) };
    if ret == 0 { return Ok(()); }
} else {
    // zero-fill loop (see zeroFillRun)
}
Ok(())
```

`fallocRet` is the oracle for the single `fallocate` return value and
`write` the oracle for the `write` calls.  File-length semantics of
`fallocate` are modelled from the spec's decision table: on success the
call realises the requested length from offset 0; on failure it "fails
cleanly with an error code" and leaves the freshly created empty file at
length 0.  The zero-fill loop appends to the empty file, so its final
length is the cumulative bytes written.  The result is `none` when the
zero-fill loop does not exit within `fuel` iterations. -/
def punchMainLinux (no_syscall : Bool) (size : Nat) (fallocRet : Int)
    (write : Nat → Option Nat) (fuel : Nat) : Option RunOutcome :=
  if !no_syscall then
    let call : Int × Int := (0, toI64 size)
    if fallocRet = 0 then
      some ⟨[call], 0, size, true, []⟩
    else
      some ⟨[call], 0, 0, true, []⟩
  else
    match zeroFillRun write size fuel 0 0 with
    | some w => some ⟨[], w, w, true, []⟩
    | none => none

/-- Result of the permission-setting block: the in-memory `Permissions`
value, and the mode bits the file actually carries afterwards. -/
structure PermSetResult where
  localMode : Nat
  fileMode : Nat
deriving DecidableEq, Repr

/-- The permission-setting block of `punch.rs`:

```rust
if let Some(iperm) = args.permissions {
    let metadata = file.metadata()?;
    let mut permissions = metadata.permissions();
    permissions.set_mode(iperm);
}
```

`createdMode` is the mode the file received at creation (0o666 masked by
the process umask).  `set_mode` mutates only the local `permissions`
value; no `set_permissions`/`fchmod` call ever writes it back, so the
file's mode is unchanged on every path. -/
def setPermissions (createdMode : Nat) (iperm : Option Nat) : PermSetResult :=
  match iperm with
  | none => ⟨createdMode, createdMode⟩
  | some p => ⟨p, createdMode⟩

/-- Unit suffixes and their byte factors accepted by the size parser
(decimal 1000-based and binary 1024-based families, plus plain bytes). -/
def unitFactor : List Char → Option Nat
  | [] => some 1
  | ['B'] => some 1
  | ['K', 'B'] => some 1000
  | ['M', 'B'] => some (1000 ^ 2)
  | ['G', 'B'] => some (1000 ^ 3)
  | ['T', 'B'] => some (1000 ^ 4)
  | ['P', 'B'] => some (1000 ^ 5)
  | ['K', 'i', 'B'] => some 1024
  | ['M', 'i', 'B'] => some (1024 ^ 2)
  | ['G', 'i', 'B'] => some (1024 ^ 3)
  | ['T', 'i', 'B'] => some (1024 ^ 4)
  | ['P', 'i', 'B'] => some (1024 ^ 5)
  | _ => none

/-- Digits of a size string folded into a number. -/
def digitsToNat (ds : List Char) : Nat :=
  ds.foldl (fun acc c => acc * 10 + (c.toNat - '0'.toNat)) 0

/-- Modelled from the spec: the size parser (`args.size.parse::<ByteSize>()`
from the `bytesize` crate, whose code is not part of this repository).
Per the spec it "parses a human-size string into an exact byte count
honoring both decimal (1000-based, e.g., \"1GB\") and binary (1024-based,
e.g., \"1GiB\") unit suffixes" and fails on malformed input.  The parsed
value is stored in the unsigned 64-bit payload of `ByteSize` (the source
reads it as `size.0` of type `u64`), so a byte count needs to fit in
`u64` to be produced; the spec's §4.2 lists no further range check. -/
def parseSize (s : List Char) : Option Nat :=
  let digits := s.takeWhile Char.isDigit
  let suffix := s.drop digits.length
  if digits.isEmpty then none
  else
    match unitFactor suffix with
    | none => none
    | some f =>
      let v := digitsToNat digits * f
      if v < 2 ^ 64 then some v else none

/-- Write oracle: every call reports a full chunk written (`Ok(1048576)`),
the ordinary behaviour of `BufWriter::write` with the 1 MiB buffer. -/
def fullWrite : Nat → Option Nat := fun _ => some chunkSize

/-- Write oracle: every call reports zero bytes written with no error
(`Ok(0)`). -/
def zeroWrite : Nat → Option Nat := fun _ => some 0

/-- Write oracle: every call fails with an I/O error (`Err(_)`). -/
def errWrite : Nat → Option Nat := fun _ => none

/-- The zero-fill loop, started as in the source (`written = 0`, first
write call), exits after finitely many iterations. -/
def LoopTerminates (write : Nat → Option Nat) (size : Nat) : Prop :=
  ∃ fuel, zeroFillRun write size fuel 0 0 ≠ none

/-! ### Helper lemmas about the zero-fill loop -/

/-- Under perpetual `Ok(0)` writes, the loop never exits while the
cumulative count is below the target size: `written += 0` makes no
progress and the `written >= size` break check never fires. -/
theorem zeroWrite_run_none (size fuel i written : Nat) (h : written < size) :
    zeroFillRun zeroWrite size fuel i written = none := by
  induction fuel generalizing i written with
  | zero => rfl
  | succ f ih =>
    simp only [zeroFillRun, zeroWrite]
    rw [if_neg (by omega)]
    exact ih (i + 1) written h

/-- Closed form of the loop under full-chunk writes: starting below the
target with enough fuel, the loop exits with the cumulative count rounded
up to the next chunk boundary past the target. -/
theorem fullWrite_run_eq (size fuel i written : Nat) (h : written < size)
    (hfuel : size ≤ written + fuel * chunkSize) :
    zeroFillRun fullWrite size fuel i written =
      some (written + chunkSize * ((size - written + chunkSize - 1) / chunkSize)) := by
  induction fuel generalizing i written with
  | zero => simp only [chunkSize] at hfuel; omega
  | succ f ih =>
    simp only [zeroFillRun, fullWrite]
    by_cases hge : written + chunkSize ≥ size
    · rw [if_pos hge]
      simp only [Option.some.injEq, chunkSize] at *
      omega
    · rw [if_neg hge]
      rw [ih (i + 1) (written + chunkSize) (by omega)
        (by simp only [chunkSize] at *; omega)]
      simp only [Option.some.injEq, chunkSize] at *
      omega

/-- Specialisation of `fullWrite_run_eq` to the loop's actual start state
(`written = 0`, fuel `size` being more than enough for positive sizes). -/
theorem fullWrite_run_start (size : Nat) (h : 0 < size) :
    zeroFillRun fullWrite size size 0 0 =
      some (chunkSize * ((size + chunkSize - 1) / chunkSize)) := by
  have := fullWrite_run_eq size size 0 0 h
    (by simp only [chunkSize]; nlinarith)
  simpa using this

/-! ### C1 -/

/-- Claim C1 counterexample: with `-S` absent and `fallocate` returning a
failure (here 1), size 5: the run performs zero writes and leaves the file
at length 0 — the manual zero-fill path is NOT entered and the file's size
is not realised. -/
theorem fallocate_failure_skips_zero_fill_cex :
    punchMainLinux false 5 1 fullWrite 1 = some ⟨[(0, 5)], 0, 0, true, []⟩ ∧
      (0 : Nat) ≠ 5 := by
  constructor
  · decide
  · decide

/-- Claim C1 (amended): when `fallocate` reports failure on a run without
`-S`, the program does not fall through into the zero-fill path at all: it
performs no writes, prints no diagnostic, and returns `Ok(())` with the
file left at length 0. -/
theorem fallocate_failure_returns_ok_without_zero_fill
    (size : Nat) (ret : Int) (w : Nat → Option Nat) (fuel : Nat)
    (h : ret ≠ 0) :
    punchMainLinux false size ret w fuel =
      some ⟨[(0, toI64 size)], 0, 0, true, []⟩ := by
  simp [punchMainLinux, h]

/-- Claim C1 witness. -/
theorem fallocate_failure_returns_ok_without_zero_fill_witness :
    (1 : Int) ≠ 0 ∧
      punchMainLinux false 5 1 fullWrite 1 =
        some ⟨[(0, toI64 5)], 0, 0, true, []⟩ :=
  ⟨by decide, fallocate_failure_returns_ok_without_zero_fill 5 1 fullWrite 1 (by decide)⟩

/-! ### C2 -/

/-- Claim C2: the `--permissions` block calls `set_mode` on a local
`Permissions` value but never applies it back to the file, so the file's
mode bits always stay at the creation-time default.  Evaluated at the
failing input: `--permissions 384` (0o600) with a creation mode of 420
(0o644, i.e. umask 0o022) leaves the file at 420, not 384. -/
theorem permissions_never_applied_to_file :
    (∀ createdMode p : Nat,
      setPermissions createdMode (some p) = ⟨p, createdMode⟩) ∧
    (setPermissions 420 (some 384)).fileMode = 420 ∧
    (setPermissions 420 (some 384)).fileMode ≠ 384 :=
  ⟨fun _ _ => rfl, rfl, by decide⟩

/-! ### C3 -/

/-- Claim C3 counterexample: on the `-S` zero-fill path with size 5, the
very first write fails with an I/O error; the `while let` loop exits
silently and `main` still returns `Ok(())` (exit status 0) with no
diagnostic, contrary to the claimed non-zero exit and diagnostic. -/
theorem write_error_silent_success_cex :
    (punchMainLinux true 5 0 errWrite 1).map RunOutcome.exitOk = some true ∧
      (punchMainLinux true 5 0 errWrite 1).map RunOutcome.diagnostics = some [] := by
  constructor
  · decide
  · decide

/-- Claim C3 (amended): after the file has been created, every terminating
run of the allocation logic — including runs where the zero-fill loop ends
because a write returned an I/O error, and runs where `fallocate` failed —
returns `Ok(())` (exit status 0) and prints no diagnostic; no failure of
the allocation paths is ever surfaced. -/
theorem allocation_paths_always_exit_ok
    (ns : Bool) (size : Nat) (ret : Int) (w : Nat → Option Nat) (fuel : Nat)
    (out : RunOutcome) (h : punchMainLinux ns size ret w fuel = some out) :
    out.exitOk = true ∧ out.diagnostics = [] := by
  unfold punchMainLinux at h
  split at h
  · split at h <;> (injection h with h; subst h; exact ⟨rfl, rfl⟩)
  · split at h
    · injection h with h; subst h; exact ⟨rfl, rfl⟩
    · cases h

/-- Claim C3 witness. -/
theorem allocation_paths_always_exit_ok_witness :
    (⟨[], 0, 0, true, []⟩ : RunOutcome).exitOk = true ∧
      (⟨[], 0, 0, true, []⟩ : RunOutcome).diagnostics = [] :=
  allocation_paths_always_exit_ok true 5 0 errWrite 1 _ (by decide)

/-! ### C4 -/

/-- Claim C4 counterexample: with `-S` and target size 0, the loop writes
one full 1 MiB chunk before its first size check, so the resulting file
has length `chunkSize` (1048576), not 0. -/
theorem size_zero_no_syscall_writes_chunk_cex :
    punchMainLinux true 0 0 fullWrite 1 =
      some ⟨[], chunkSize, chunkSize, true, []⟩ ∧ chunkSize ≠ 0 := by
  constructor
  · decide
  · decide

/-- Claim C4 (amended): for target size 0, the syscall path leaves a
zero-length file and exits 0 whatever `fallocate` returns, but the `-S`
zero-fill path performs one full-chunk write before its size check and
produces a file of length `chunkSize` (also exiting 0). -/
theorem size_zero_paths :
    (∀ (ret : Int) (w : Nat → Option Nat) (fuel : Nat) (out : RunOutcome),
      punchMainLinux false 0 ret w fuel = some out →
        out.finalLen = 0 ∧ out.exitOk = true) ∧
    (∀ fuel : Nat, 0 < fuel →
      punchMainLinux true 0 0 fullWrite fuel =
        some ⟨[], chunkSize, chunkSize, true, []⟩) := by
  constructor
  · intro ret w fuel out h
    unfold punchMainLinux at h
    simp only [Bool.not_false, if_true] at h
    split at h <;> (injection h with h; subst h; exact ⟨rfl, rfl⟩)
  · intro fuel hfuel
    match fuel, hfuel with
    | f + 1, _ =>
      simp [punchMainLinux, zeroFillRun, fullWrite]

/-- Claim C4 witness. -/
theorem size_zero_paths_witness :
    (((⟨[(0, toI64 0)], 0, 0, true, []⟩ : RunOutcome).finalLen = 0 ∧
      (⟨[(0, toI64 0)], 0, 0, true, []⟩ : RunOutcome).exitOk = true) ∧
     (0 < 1 ∧ punchMainLinux true 0 0 fullWrite 1 =
        some ⟨[], chunkSize, chunkSize, true, []⟩)) :=
  ⟨size_zero_paths.1 1 fullWrite 1 _ (by decide),
   by decide, size_zero_paths.2 1 (by decide)⟩

/-! ### C5 -/

/-- Claim C5 counterexample: with target size 1, under writes that always
report zero bytes written with no error, the zero-fill loop never exits —
it does not terminate silently; it does not terminate at all. -/
theorem zero_write_loop_never_exits_cex : ¬ LoopTerminates zeroWrite 1 := by
  rintro ⟨fuel, h⟩
  exact h (zeroWrite_run_none 1 fuel 0 0 (by decide))

/-- Claim C5 (amended): a write that returns `Ok(0)` does not terminate the
loop; under a perpetual sequence of successful zero-byte writes with a
positive target size, the loop makes no progress and never terminates
(the infinite-loop risk the spec's error taxonomy itself notes). -/
theorem zero_write_stall_diverges (size : Nat) (h : 0 < size) :
    ¬ LoopTerminates zeroWrite size := by
  rintro ⟨fuel, hex⟩
  exact hex (zeroWrite_run_none size fuel 0 0 h)

/-- Claim C5 witness. -/
theorem zero_write_stall_diverges_witness :
    0 < 2 ∧ ¬ LoopTerminates zeroWrite 2 :=
  ⟨by decide, zero_write_stall_diverges 2 (by decide)⟩

/-! ### C6 -/

/-- Claim C6 counterexample: target size 0 is an exact multiple of the
chunk size, yet under full-chunk writes the loop writes `chunkSize` bytes
in total, not 0 — the write happens before the first size check. -/
theorem zero_multiple_overshoot_cex :
    chunkSize ∣ 0 ∧ zeroFillRun fullWrite 0 1 0 0 = some chunkSize ∧
      chunkSize ≠ 0 :=
  ⟨dvd_zero _, by decide, by decide⟩

/-- Claim C6 (amended): for positive target sizes under full-chunk writes,
the total written is the target rounded up to the next chunk boundary:
at least the target, overshooting by at most `chunkSize - 1`, and equal to
the target exactly when the target is a (positive) multiple of the chunk
size.  For target size 0 the total is `chunkSize`, not 0. -/
theorem full_write_total_bytes (size : Nat) (h : 0 < size) :
    zeroFillRun fullWrite size size 0 0 =
      some (chunkSize * ((size + chunkSize - 1) / chunkSize)) ∧
    size ≤ chunkSize * ((size + chunkSize - 1) / chunkSize) ∧
    chunkSize * ((size + chunkSize - 1) / chunkSize) ≤ size + (chunkSize - 1) ∧
    (chunkSize ∣ size → chunkSize * ((size + chunkSize - 1) / chunkSize) = size) := by
  refine ⟨fullWrite_run_start size h, ?_, ?_, ?_⟩
  · simp only [chunkSize]; omega
  · simp only [chunkSize]; omega
  · intro hdvd
    simp only [chunkSize] at *
    omega

/-- Claim C6 witness. -/
theorem full_write_total_bytes_witness :
    0 < 1 ∧
      (zeroFillRun fullWrite 1 1 0 0 =
        some (chunkSize * ((1 + chunkSize - 1) / chunkSize)) ∧
      1 ≤ chunkSize * ((1 + chunkSize - 1) / chunkSize) ∧
      chunkSize * ((1 + chunkSize - 1) / chunkSize) ≤ 1 + (chunkSize - 1) ∧
      (chunkSize ∣ 1 → chunkSize * ((1 + chunkSize - 1) / chunkSize) = 1)) :=
  ⟨by decide, full_write_total_bytes 1 (by decide)⟩

/-! ### C7 -/

/-- Claim C7 counterexample: the size string "10000000000000000000B"
denotes 10^19 bytes, which exceeds the signed 64-bit maximum (2^63 - 1 ≈
9.22 * 10^18); the parser accepts it, and the `size as i64` cast the
source then performs wraps it to a negative value, changing its numeric
value. -/
theorem parse_accepts_above_i64_cex :
    parseSize ['1', '0', '0', '0', '0', '0', '0', '0', '0', '0', '0', '0',
        '0', '0', '0', '0', '0', '0', '0', '0', 'B'] =
      some 10000000000000000000 ∧
    toI64 10000000000000000000 ≠ (10000000000000000000 : Int) ∧
    toI64 10000000000000000000 < 0 := by
  refine ⟨by decide, by decide, by decide⟩

/-- Claim C7 (amended): every size the parser accepts is representable as
an unsigned 64-bit integer, but nothing bounds it by the signed 64-bit
range: the cast to `i64` preserves the numeric value exactly when the
size is below 2^63, and changes it (wrapping) otherwise. -/
theorem parse_u64_range_and_cast (s : List Char) (n : Nat)
    (h : parseSize s = some n) :
    n < 2 ^ 64 ∧ (toI64 n = n ↔ n < 2 ^ 63) := by
  have hn : n < 2 ^ 64 := by
    simp only [parseSize] at h
    split at h
    · cases h
    · split at h
      · cases h
      · split at h
        · injection h with h
          omega
        · cases h
  refine ⟨hn, ?_⟩
  unfold toI64
  split <;> omega

/-- Claim C7 witness. -/
theorem parse_u64_range_and_cast_witness :
    parseSize ['1', 'K', 'i', 'B'] = some 1024 ∧
      (1024 < 2 ^ 64 ∧ (toI64 1024 = (1024 : Int) ↔ 1024 < 2 ^ 63)) :=
  ⟨by decide, parse_u64_range_and_cast ['1', 'K', 'i', 'B'] 1024 (by decide)⟩

/-! ### C8 -/

/-- Claim C8 counterexample: for target size 1 (not a multiple of the
chunk size), the syscall path (with `fallocate` succeeding) yields final
length 1 while the `-S` zero-fill path (with full-chunk writes) yields
final length `chunkSize` — the two paths do not agree. -/
theorem length_mismatch_paths_cex :
    (punchMainLinux false 1 0 fullWrite 1).map RunOutcome.finalLen = some 1 ∧
    (punchMainLinux true 1 0 fullWrite 1).map RunOutcome.finalLen =
      some chunkSize ∧
    (1 : Nat) ≠ chunkSize := by
  refine ⟨by decide, by decide, by decide⟩

/-- Claim C8 (amended): the two paths produce the same final length
exactly on positive multiples of the chunk size (given a successful
`fallocate` on one side and full-chunk writes on the other); for other
sizes the zero-fill path overshoots to the next chunk boundary, and for
size 0 it writes a whole chunk while the syscall path leaves length 0. -/
theorem paths_agree_on_positive_multiples (size : Nat)
    (h : 0 < size) (hdvd : chunkSize ∣ size) :
    (punchMainLinux false size 0 fullWrite size).map RunOutcome.finalLen =
      some size ∧
    (punchMainLinux true size 0 fullWrite size).map RunOutcome.finalLen =
      some size := by
  constructor
  · simp [punchMainLinux]
  · have hrun := fullWrite_run_start size h
    have heq : chunkSize * ((size + chunkSize - 1) / chunkSize) = size := by
      simp only [chunkSize] at *
      omega
    simp [punchMainLinux, hrun, heq]

/-- Claim C8 witness. -/
theorem paths_agree_on_positive_multiples_witness :
    (0 < chunkSize ∧ chunkSize ∣ chunkSize) ∧
    ((punchMainLinux false chunkSize 0 fullWrite chunkSize).map
        RunOutcome.finalLen = some chunkSize ∧
     (punchMainLinux true chunkSize 0 fullWrite chunkSize).map
        RunOutcome.finalLen = some chunkSize) :=
  ⟨⟨by decide, dvd_refl _⟩,
   paths_agree_on_positive_multiples chunkSize (by decide) (dvd_refl _)⟩

/-! ### C9 -/

/-- Claim C9: on a Linux build without `-S`, the model records exactly one
`fallocate` invocation, at offset 0 with length the full target size (the
`u64` to `i64` cast is the identity below 2^63); when it returns 0 the run
completes successfully at once — no zero-fill write happens and the file's
length is the target size. -/
theorem fallocate_called_once_success_path (size : Nat)
    (w : Nat → Option Nat) (fuel : Nat) (h : size < 2 ^ 63) :
    punchMainLinux false size 0 w fuel =
      some ⟨[(0, (size : Int))], 0, size, true, []⟩ := by
  simp [punchMainLinux, toI64, h]
  omega

/-- Claim C9 witness. -/
theorem fallocate_called_once_success_path_witness :
    (42 : Nat) < 2 ^ 63 ∧
      punchMainLinux false 42 0 fullWrite 1 =
        some ⟨[(0, (42 : Int))], 0, 42, true, []⟩ :=
  ⟨by decide, fallocate_called_once_success_path 42 fullWrite 1 (by decide)⟩

/-! ### C10 -/

/-- Claim C10: on a Linux build without `-S`, whenever `fallocate` returns
a nonzero value, the run records that single call, performs no zero-fill
writes, prints no diagnostic, returns `Ok(())` (exit status 0), and leaves
the file at length 0. -/
theorem fallocate_failure_outcome (size : Nat) (ret : Int)
    (w : Nat → Option Nat) (fuel : Nat) (out : RunOutcome)
    (hret : ret ≠ 0) (h : punchMainLinux false size ret w fuel = some out) :
    out.written = 0 ∧ out.exitOk = true ∧ out.finalLen = 0 ∧
      out.diagnostics = [] ∧ out.fallocCalls = [(0, toI64 size)] := by
  simp [punchMainLinux, hret] at h
  subst h
  exact ⟨rfl, rfl, rfl, rfl, rfl⟩

/-- Claim C10 witness. -/
theorem fallocate_failure_outcome_witness :
    (1 : Int) ≠ 0 ∧
      ((⟨[(0, toI64 7)], 0, 0, true, []⟩ : RunOutcome).written = 0 ∧
       (⟨[(0, toI64 7)], 0, 0, true, []⟩ : RunOutcome).exitOk = true ∧
       (⟨[(0, toI64 7)], 0, 0, true, []⟩ : RunOutcome).finalLen = 0 ∧
       (⟨[(0, toI64 7)], 0, 0, true, []⟩ : RunOutcome).diagnostics = [] ∧
       (⟨[(0, toI64 7)], 0, 0, true, []⟩ : RunOutcome).fallocCalls =
         [(0, toI64 7)]) :=
  ⟨by decide,
   fallocate_failure_outcome 7 1 fullWrite 1 _ (by decide) (by decide)⟩
